import Mathlib

/-!
Shallow embedding of the WebContainer store and terminal panel of
rdd0820/online-edit-web.

The two source files modelled here are:
* `src/store/webContainerStore.tsx` — a zustand store with state
  `{ webContainerInstance, isInitialized, url }` and actions
  `initWebContainer`, `setUrl`, `setInitialized`;
* the terminal panel component (`TerminalPanel`) with its helper
  `executeAutoCommands`, its `terminalResize` handler, its stream wiring and
  its `useEffect` cleanup.

Container instances are identified by a `Nat`; the effects performed by each
function (boot, file writes, listener attachment, spawns, terminal writes,
sleeps) are recorded explicitly as traces or accumulator state so that the
ordering and counting claims can be stated.
-/

namespace OnlineEdit

/-- The zustand store state (`WebContainerState` in the source), plus a
counter of how many 'server-ready' listeners have been registered on the
(unique, never-replaced) container instance via `.on('server-ready', …)`.
The listener counter is not a store field in the source; it models the
accumulated effect of the `on` calls on the container object. -/
structure StoreState where
  webContainerInstance : Option Nat
  isInitialized : Bool
  url : String
  serverReadyListeners : Nat
deriving Repr, DecidableEq

/-- The initial zustand store: `webContainerInstance: null, isInitialized: false, url: ''`. -/
def initialStore : StoreState :=
  { webContainerInstance := none, isInitialized := false, url := "", serverReadyListeners := 0 }

/-- Per-call environment of `initWebContainer`: the value `localforage.getItem(projectId)`
resolves to (the cached project file data, if present), the module-level
`curDirectory` value, and the identity of the container `WebContainer.boot()`
would return on this call. -/
structure CallEnv where
  projectInfo : Option String
  curDirectory : Option String
  freshInstance : Nat

/-- The externally visible effects of one `initWebContainer` call, in
program order. -/
inductive InitEvent
  | getProjectInfo
  | boot
  | writeProjectFiles
  | writeCurDirectory
  | attachServerReady
  | storeSet
deriving Repr, DecidableEq

/-- `initWebContainer` (webContainerStore.tsx lines 25–98).

Branch condition is the source's `!isInitialized && !webContainerInstance`.
In the fresh branch it boots a container, writes the cached project files
(when `projectInfo` is truthy), writes `curDirectory` (when truthy), attaches
a 'server-ready' listener on the new instance and finally
`set({ webContainerInstance: newWebContainerInstance, isInitialized: true })`.
In the other branch it performs the same writes against the existing
instance, re-attaches a 'server-ready' listener (skipped by the `?.` only
when the instance is `null`) and finally
`set({ webContainerInstance, isInitialized: true })`. -/
def initWebContainer (s : StoreState) (env : CallEnv) : StoreState × List InitEvent :=
  if s.isInitialized = false ∧ s.webContainerInstance = none then
    ({ s with
        webContainerInstance := some env.freshInstance
        isInitialized := true
        serverReadyListeners := s.serverReadyListeners + 1 },
     [InitEvent.getProjectInfo, InitEvent.boot]
       ++ (if env.projectInfo.isSome then [InitEvent.writeProjectFiles] else [])
       ++ (if env.curDirectory.isSome then [InitEvent.writeCurDirectory] else [])
       ++ [InitEvent.attachServerReady, InitEvent.storeSet])
  else
    ({ s with
        webContainerInstance := s.webContainerInstance
        isInitialized := true
        serverReadyListeners :=
          s.serverReadyListeners + (if s.webContainerInstance.isSome then 1 else 0) },
     [InitEvent.getProjectInfo]
       ++ (if env.projectInfo.isSome then [InitEvent.writeProjectFiles] else [])
       ++ (if env.curDirectory.isSome then [InitEvent.writeCurDirectory] else [])
       ++ (if s.webContainerInstance.isSome then [InitEvent.attachServerReady] else [])
       ++ [InitEvent.storeSet])

/-- `setUrl` action of the store. -/
def setUrl (s : StoreState) (u : String) : StoreState :=
  { s with url := u }

/-- A sequence of `initWebContainer` calls against the store. -/
def runInitCalls (s : StoreState) : List CallEnv → StoreState
  | [] => s
  | e :: es => runInitCalls (initWebContainer s e).1 es

/-! ## `executeAutoCommands` (terminal panel helper, lines 37–193)

The function body is a `try { … } catch (error) { … }`. Inside the try it
polls `fs.readdir('/react')` up to `maxRetries = 50` times with a 200 ms
sleep after each failed attempt, then runs the hardcoded `commands` list via
`webContainerInstance.spawn(command, args, { cwd: '/react' })`. All terminal
output, readdir attempts, sleeps, spawns and awaited exits are recorded in
`AutoState`. -/

/-- One entry of the hardcoded `commands` array (lines 90–103). -/
structure Cmd where
  command : String
  args : List String
  waitForExit : Bool
  description : String
deriving Repr, DecidableEq

/-- The hardcoded command list: `pnpm install` (awaited) then `pnpm dev`
(background). -/
def commands : List Cmd :=
  [ { command := "pnpm", args := ["install"], waitForExit := true,
      description := "📦 正在安装依赖..." },
    { command := "pnpm", args := ["dev"], waitForExit := false,
      description := "🚀 正在启动开发服务器..." } ]

/-- A process spawn performed by `executeAutoCommands`: command, argument
list and working directory. -/
structure Spawned where
  command : String
  args : List String
  cwd : String
deriving Repr, DecidableEq

/-- The spawn of `pnpm install` with `cwd: '/react'`. -/
def installSpawn : Spawned := { command := "pnpm", args := ["install"], cwd := "/react" }

/-- The spawn of `pnpm dev` with `cwd: '/react'`. -/
def devSpawn : Spawned := { command := "pnpm", args := ["dev"], cwd := "/react" }

/-- Environment of one `executeAutoCommands` run: whether
`fs.readdir('/react')` succeeds on the i-th polling attempt, and for each
spawn either the exception message the spawn raises or the exit code the
spawned process eventually reports (`await process.exit`). -/
structure AutoEnv where
  dirExistsAt : Nat → Bool
  spawnResult : Spawned → Except String Int

/-- Effects accumulated during `executeAutoCommands`: the `terminal.writeln`
arguments in order, the number of `fs.readdir('/react')` attempts, the
number of 200 ms sleeps, the spawns performed and the spawns whose exit was
awaited. -/
structure AutoState where
  lines : List String
  attempts : Nat
  sleeps : Nat
  spawned : List Spawned
  awaitedExits : List Spawned
deriving Repr, DecidableEq

/-- `maxRetries = 50` (line 52). -/
def maxRetries : Nat := 50

/-- `retryInterval = 200` ms (line 53). -/
def retryInterval : Nat := 200

def waitingLine : String := "\r\n\x1b[1;36m⏳ 等待项目目录初始化...\x1b[0m\r\n"
def dirReadyLine : String := "\x1b[1;32m✅ 项目目录已就绪\x1b[0m\r\n"
def dirNotFoundLine : String :=
  "\r\n\x1b[1;31m❌ 错误: /react 目录未找到,请确保项目文件已正确加载\x1b[0m\r\n"
def autoStartLine : String := "\r\n\x1b[1;36m🤖 自动启动流程开始\x1b[0m\r\n"
def descLine (c : Cmd) : String := "\x1b[1;33m" ++ c.description ++ "\x1b[0m"
def echoLine (c : Cmd) : String :=
  "\x1b[90m$ " ++ c.command ++ " " ++ String.intercalate " " c.args ++ "\x1b[0m\r\n"
def cmdFailedLine (exitCode : Int) : String :=
  "\r\n\x1b[1;31m❌ 命令执行失败 (退出码: " ++ toString exitCode ++ ")\x1b[0m\r\n"
def doneLine : String := "\r\n\x1b[1;32m✅ 完成\x1b[0m\r\n"
def serviceStartedLine : String := "\r\n\x1b[1;32m✅ 服务已启动\x1b[0m\r\n"
def allDoneLine : String := "\x1b[1;36m🎉 自动启动流程完成!\x1b[0m\r\n"
def autoFailLine (msg : String) : String :=
  "\r\n\x1b[1;31m❌ 自动启动失败: " ++ msg ++ "\x1b[0m\r\n"

/-- The polling `for` loop (lines 58–70): attempt `readdir('/react')`; on
success write the ready line and break with `true`; on failure sleep
`retryInterval` and retry. `i` is the current loop index, the second `Nat`
the remaining iterations. Returns the final state and `reactDirExists`. -/
def pollLoop (env : AutoEnv) (s : AutoState) : Nat → Nat → AutoState × Bool
  | _, 0 => (s, false)
  | i, fuel + 1 =>
    let s1 := { s with attempts := s.attempts + 1 }
    if env.dirExistsAt i then
      ({ s1 with lines := s1.lines ++ [dirReadyLine] }, true)
    else
      pollLoop env { s1 with sleeps := s1.sleeps + 1 } (i + 1) fuel

/-- How the `try` body of `executeAutoCommands` finishes: falls off the end,
returns early (`return` on directory-timeout or nonzero exit code), or
raises an exception that the outer `catch` will receive. -/
inductive BodyOutcome
  | completed
  | earlyReturn
  | threw (msg : String)
deriving Repr, DecidableEq

/-- The `for (const {…} of commands)` loop (lines 114–182) followed by the
final success line: echo the description and the command, spawn at
`cwd: '/react'` (an exception here propagates), pipe its output, and when
`waitForExit` await the exit code — returning early if it is nonzero. -/
def runCmds (env : AutoEnv) (s : AutoState) : List Cmd → AutoState × BodyOutcome
  | [] => ({ s with lines := s.lines ++ [allDoneLine] }, BodyOutcome.completed)
  | c :: rest =>
    let s1 := { s with lines := s.lines ++ [descLine c, echoLine c] }
    let sp : Spawned := { command := c.command, args := c.args, cwd := "/react" }
    match env.spawnResult sp with
    | Except.error msg => (s1, BodyOutcome.threw msg)
    | Except.ok exitCode =>
      let s2 := { s1 with spawned := s1.spawned ++ [sp] }
      if c.waitForExit then
        let s3 := { s2 with awaitedExits := s2.awaitedExits ++ [sp] }
        if exitCode ≠ 0 then
          ({ s3 with lines := s3.lines ++ [cmdFailedLine exitCode] }, BodyOutcome.earlyReturn)
        else
          runCmds env { s3 with lines := s3.lines ++ [doneLine] } rest
      else
        runCmds env { s2 with lines := s2.lines ++ [serviceStartedLine] } rest

/-- The accumulator state at the top of the `try` body: the waiting line
has been written, nothing else has happened yet. -/
def autoS0 : AutoState :=
  { lines := [waitingLine], attempts := 0, sleeps := 0, spawned := [], awaitedExits := [] }

/-- The `try` body (lines 38–185): write the waiting line, poll for
`/react`, and either return early with the not-found line or run the
command list. -/
def tryBody (env : AutoEnv) : AutoState × BodyOutcome :=
  let r := pollLoop env autoS0 0 maxRetries
  if r.2 then
    runCmds env { r.1 with lines := r.1.lines ++ [autoStartLine] } commands
  else
    ({ r.1 with lines := r.1.lines ++ [dirNotFoundLine] }, BodyOutcome.earlyReturn)

/-- `executeAutoCommands` (lines 37–193): the `try` body wrapped by the
`catch`, which logs the error and writes the failure line to the terminal;
the function always returns normally. -/
def executeAutoCommands (env : AutoEnv) : AutoState :=
  match tryBody env with
  | (s, BodyOutcome.threw msg) => { s with lines := s.lines ++ [autoFailLine msg] }
  | (s, _) => s

/-! ## Terminal panel (`TerminalPanel`) -/

/-- The effects of the `useEffect` init IIFE of `TerminalPanel`
(lines 321–602), in program order. -/
inductive PanelEvent
  | importModules
  | createTerminal
  | loadAddons
  | openTerminal
  | initialFit
  | spawnShell
  | addWindowResizeListener
  | pipeOutputToTerminal
  | wireTerminalDataToInput
  | runAutoCommands
deriving Repr, DecidableEq

/-- The init IIFE: always imports the xterm modules and instantiates the
addons; only when a container instance exists, the DOM node is mounted and
no terminal has been created yet does it create/open/fit the terminal,
spawn the `jsh` shell, add the window resize listener, wire the two streams
and run `executeAutoCommands`. -/
def panelInit (hasInstance domMounted terminalExists : Bool) : List PanelEvent :=
  PanelEvent.importModules ::
    (if hasInstance then
      if domMounted && !terminalExists then
        [PanelEvent.createTerminal, PanelEvent.loadAddons, PanelEvent.openTerminal,
         PanelEvent.initialFit, PanelEvent.spawnShell, PanelEvent.addWindowResizeListener,
         PanelEvent.pipeOutputToTerminal, PanelEvent.wireTerminalDataToInput,
         PanelEvent.runAutoCommands]
      else []
    else [])

/-- Terminal geometry: `terminal.cols` and `terminal.rows`. -/
structure TermGeom where
  cols : Nat
  rows : Nat
deriving Repr, DecidableEq

/-- The mutable pieces `terminalResize` touches: the xterm terminal's
geometry, the shell pseudo-terminal's geometry (`none` while the shell has
not been spawned), and whether the fit addon has been instantiated. -/
structure TermPanelState where
  termGeom : TermGeom
  shellGeom : Option TermGeom
  fitAddonLoaded : Bool
deriving Repr, DecidableEq

/-- `fitAddon.fit()`: recompute the terminal geometry from the container
(the fitted geometry is supplied by the environment). -/
def fitStep (fitted : TermGeom) (s : TermPanelState) : TermPanelState :=
  { s with termGeom := fitted }

/-- `shell.current.resize({ cols, rows })`: set the shell pseudo-terminal's
geometry (the shell exists whenever this is reached). -/
def shellResizeStep (g : TermGeom) (s : TermPanelState) : TermPanelState :=
  { s with shellGeom := s.shellGeom.map fun _ => g }

/-- `terminalResize` (lines 298–311), which is also the body of the
`window.addEventListener('resize', …)` handler (lines 496–509): when both
the fit addon and the shell process exist, first `fitAddon.fit()`, then
`shell.current.resize({ cols: terminal?.cols, rows: terminal?.rows })`
reading the terminal's geometry after the fit; otherwise do nothing. -/
def terminalResize (fitted : TermGeom) (s : TermPanelState) : TermPanelState :=
  if s.fitAddonLoaded && s.shellGeom.isSome then
    let s1 := fitStep fitted s
    shellResizeStep { cols := s1.termGeom.cols, rows := s1.termGeom.rows } s1
  else s

/-- Output wiring (lines 533–546): `shell.current.output.pipeTo(new
WritableStream({ write(data) { terminal?.write(data) } }))`. Each chunk the
shell's output stream produces is appended to the terminal's received
writes, in order. -/
def pipeShellOutput (termWrites : List String) : List String → List String
  | [] => termWrites
  | d :: ds => pipeShellOutput (termWrites ++ [d]) ds

/-- Input wiring (lines 556–583): `terminal?.onData((data) =>
input.write(data))` where `input = shell.current.input.getWriter()`. Each
data event the terminal emits is appended to the shell input stream's
received writes, in order. -/
def feedTerminalData (inputWrites : List String) : List String → List String
  | [] => inputWrites
  | d :: ds => feedTerminalData (inputWrites ++ [d]) ds

/-- The effects of the `useEffect` cleanup function (lines 617–676), in
program order. -/
inductive CleanupEvent
  | fsRmRootRecursive
  | killShell
  | setUrlEmpty
  | clearTerminal
deriving Repr, DecidableEq

/-- The cleanup returned by the `useEffect`:
`webContainerInstance?.fs.rm('/', { recursive: true })` (skipped by `?.`
when the instance is `null`), `shell.current?.kill()` (skipped when no
shell was spawned), `setUrl('')`, `terminal = null`. -/
def panelCleanup (hasInstance shellSpawned : Bool) : List CleanupEvent :=
  (if hasInstance then [CleanupEvent.fsRmRootRecursive] else [])
    ++ (if shellSpawned then [CleanupEvent.killShell] else [])
    ++ [CleanupEvent.setUrlEmpty, CleanupEvent.clearTerminal]

/-! ## Concrete instances used in witnesses and counterexamples -/

/-- A call environment with no cached project files and no `curDirectory`. -/
def plainEnv : CallEnv :=
  { projectInfo := none, curDirectory := none, freshInstance := 0 }

/-- A call environment with cached project files and a `curDirectory`. -/
def fullEnv : CallEnv :=
  { projectInfo := some "files", curDirectory := some "dir", freshInstance := 1 }

/-- A store already initialized and holding container instance 5. -/
def readyStore : StoreState :=
  { webContainerInstance := some 5, isInitialized := true, url := "",
    serverReadyListeners := 1 }

/-- An environment where `/react` first appears on polling attempt 3 and all
spawns succeed with exit code 0. -/
def pollEnv3 : AutoEnv :=
  { dirExistsAt := fun i => i == 3, spawnResult := fun _ => Except.ok 0 }

/-- An environment where `/react` exists immediately and all spawns succeed
with exit code 0. -/
def okEnv : AutoEnv :=
  { dirExistsAt := fun _ => true, spawnResult := fun _ => Except.ok 0 }

/-- An environment where `/react` exists immediately and every spawn raises
an exception with message `boom`. -/
def throwEnv : AutoEnv :=
  { dirExistsAt := fun _ => true, spawnResult := fun _ => Except.error "boom" }

/-- The state of the `try` body of `executeAutoCommands` at the moment the
first spawn of `throwEnv` raises its exception. -/
def throwTryState : AutoState :=
  { lines := [waitingLine, dirReadyLine, autoStartLine,
      descLine { command := "pnpm", args := ["install"], waitForExit := true,
                 description := "📦 正在安装依赖..." },
      echoLine { command := "pnpm", args := ["install"], waitForExit := true,
                 description := "📦 正在安装依赖..." }],
    attempts := 1, sleeps := 0, spawned := [], awaitedExits := [] }

/-- A terminal panel state with a loaded fit addon and a spawned shell at
80x24. -/
def panelStateW : TermPanelState :=
  { termGeom := { cols := 80, rows := 24 },
    shellGeom := some { cols := 80, rows := 24 }, fitAddonLoaded := true }

/-- A fitted geometry of 120x30. -/
def fittedW : TermGeom := { cols := 120, rows := 30 }

/-! ## Supporting lemmas -/

theorem runInitCalls_nil (s : StoreState) : runInitCalls s [] = s := rfl

theorem runInitCalls_cons (s : StoreState) (e : CallEnv) (es : List CallEnv) :
    runInitCalls s (e :: es) = runInitCalls (initWebContainer s e).1 es := rfl

/-- Once the store holds an instance, every further `initWebContainer` call
keeps that instance and registers one more 'server-ready' listener. -/
theorem runInitCalls_listeners_of_some (envs : List CallEnv) :
    ∀ s : StoreState, s.webContainerInstance.isSome = true →
      (runInitCalls s envs).serverReadyListeners = s.serverReadyListeners + envs.length := by
  induction envs with
  | nil => intro s _; simp [runInitCalls]
  | cons e es ih =>
    intro s hs
    have hnone : ¬ (s.isInitialized = false ∧ s.webContainerInstance = none) := by
      rintro ⟨_, h2⟩
      rw [h2] at hs
      simp [Option.isSome] at hs
    rw [runInitCalls_cons]
    rw [initWebContainer]
    simp only [hnone, if_false]
    rw [ih _ (by simpa using hs)]
    simp [hs]
    omega


theorem pollLoop_zero (env : AutoEnv) (i : Nat) (s : AutoState) :
    pollLoop env s i 0 = (s, false) := rfl

theorem pollLoop_succ_found (env : AutoEnv) (i n : Nat) (s : AutoState)
    (h : env.dirExistsAt i = true) :
    pollLoop env s i (n + 1) =
      ({ s with lines := s.lines ++ [dirReadyLine], attempts := s.attempts + 1 }, true) := by
  simp [pollLoop, h]

theorem pollLoop_succ_fail (env : AutoEnv) (i n : Nat) (s : AutoState)
    (h : env.dirExistsAt i = false) :
    pollLoop env s i (n + 1) =
      pollLoop env { s with attempts := s.attempts + 1, sleeps := s.sleeps + 1 } (i + 1) n := by
  simp [pollLoop, h]

/-- The polling loop never spawns and never awaits an exit. -/
theorem pollLoop_preserves (env : AutoEnv) :
    ∀ (fuel i : Nat) (s : AutoState),
      (pollLoop env s i fuel).1.spawned = s.spawned ∧
      (pollLoop env s i fuel).1.awaitedExits = s.awaitedExits := by
  intro fuel
  induction fuel with
  | zero => intro i s; simp [pollLoop_zero]
  | succ n ih =>
    intro i s
    by_cases h : env.dirExistsAt i
    · simp [pollLoop_succ_found env i n s h]
    · rw [pollLoop_succ_fail env i n s (by simpa using h)]
      simpa using ih (i + 1) { s with attempts := s.attempts + 1, sleeps := s.sleeps + 1 }

/-- The polling loop performs at most `fuel` readdir attempts and at most
`fuel` sleeps. -/
theorem pollLoop_counters_le (env : AutoEnv) :
    ∀ (fuel i : Nat) (s : AutoState),
      (pollLoop env s i fuel).1.attempts ≤ s.attempts + fuel ∧
      (pollLoop env s i fuel).1.sleeps ≤ s.sleeps + fuel := by
  intro fuel
  induction fuel with
  | zero => intro i s; simp [pollLoop_zero]
  | succ n ih =>
    intro i s
    by_cases h : env.dirExistsAt i
    · rw [pollLoop_succ_found env i n s h]
      constructor <;> simp
    · rw [pollLoop_succ_fail env i n s (by simpa using h)]
      obtain ⟨h1, h2⟩ := ih (i + 1) { s with attempts := s.attempts + 1, sleeps := s.sleeps + 1 }
      simp only at h1 h2
      constructor <;> omega

/-- If attempt `i + k` is the first success (all earlier offsets fail) and
lies inside the fuel budget, the loop does exactly `k + 1` attempts and `k`
sleeps, writes the ready line, and reports success. -/
theorem pollLoop_first_success (env : AutoEnv) :
    ∀ (k fuel i : Nat) (s : AutoState), k < fuel →
      (∀ j, j < k → env.dirExistsAt (i + j) = false) →
      env.dirExistsAt (i + k) = true →
      pollLoop env s i fuel =
        ({ s with lines := s.lines ++ [dirReadyLine],
                  attempts := s.attempts + (k + 1), sleeps := s.sleeps + k }, true) := by
  intro k
  induction k with
  | zero =>
    intro fuel i s hk _ hsucc
    cases fuel with
    | zero => omega
    | succ n =>
      rw [Nat.add_zero] at hsucc
      rw [pollLoop_succ_found env i n s hsucc]
      simp
  | succ k ih =>
    intro fuel i s hk hprev hsucc
    cases fuel with
    | zero => omega
    | succ n =>
      have h0 : env.dirExistsAt i = false := by
        have := hprev 0 (by omega); simpa using this
      rw [pollLoop_succ_fail env i n s h0]
      rw [ih n (i + 1) _ (by omega)
        (fun j hj => by
          have := hprev (j + 1) (by omega)
          have harith : i + (j + 1) = i + 1 + j := by omega
          rwa [harith] at this)
        (by
          have harith : i + (k + 1) = i + 1 + k := by omega
          rwa [harith] at hsucc)]
      simp only [Prod.mk.injEq, AutoState.mk.injEq, and_true, true_and]
      omega

/-- If every attempt inside the fuel budget fails, the loop does exactly
`fuel` attempts and `fuel` sleeps and reports failure. -/
theorem pollLoop_all_fail (env : AutoEnv) :
    ∀ (fuel i : Nat) (s : AutoState),
      (∀ j, j < fuel → env.dirExistsAt (i + j) = false) →
      pollLoop env s i fuel =
        ({ s with attempts := s.attempts + fuel, sleeps := s.sleeps + fuel }, false) := by
  intro fuel
  induction fuel with
  | zero => intro i s _; simp [pollLoop_zero]
  | succ n ih =>
    intro i s h
    have h0 : env.dirExistsAt i = false := by
      have := h 0 (by omega); simpa using this
    rw [pollLoop_succ_fail env i n s h0]
    rw [ih (i + 1) _
      (fun j hj => by
        have := h (j + 1) (by omega)
        have harith : i + (j + 1) = i + 1 + j := by omega
        rwa [harith] at this)]
    simp only [Prod.mk.injEq, AutoState.mk.injEq, and_true, true_and]
    omega

/-- If some attempt inside the fuel budget succeeds, the loop reports
success. -/
theorem pollLoop_found (env : AutoEnv) :
    ∀ (fuel i : Nat) (s : AutoState),
      (∃ k, k < fuel ∧ env.dirExistsAt (i + k) = true) →
      (pollLoop env s i fuel).2 = true := by
  intro fuel
  induction fuel with
  | zero => rintro i s ⟨k, hk, _⟩; omega
  | succ n ih =>
    rintro i s ⟨k, hk, hs⟩
    by_cases h0 : env.dirExistsAt i
    · simp [pollLoop_succ_found env i n s h0]
    · have h0' : env.dirExistsAt i = false := by simpa using h0
      rw [pollLoop_succ_fail env i n s h0']
      apply ih
      cases k with
      | zero =>
        rw [Nat.add_zero] at hs
        exact absurd hs (by simp [h0'])
      | succ k' =>
        refine ⟨k', by omega, ?_⟩
        have harith : i + 1 + k' = i + (k' + 1) := by omega
        rwa [harith]

/-- The command loop changes neither the attempt counter nor the sleep
counter. -/
theorem runCmds_counters (env : AutoEnv) :
    ∀ (cmds : List Cmd) (s : AutoState),
      (runCmds env s cmds).1.attempts = s.attempts ∧
      (runCmds env s cmds).1.sleeps = s.sleeps := by
  intro cmds
  induction cmds with
  | nil => intro s; simp [runCmds]
  | cons c rest ih =>
    intro s
    rw [runCmds]
    rcases h : env.spawnResult { command := c.command, args := c.args, cwd := "/react" }
      with msg | code
    · simp
    · simp only
      by_cases hw : c.waitForExit
      · simp only [hw, if_true]
        by_cases hc : code ≠ 0
        · simp [hc]
        · simp only [hc, if_false]
          constructor
          · rw [(ih _).1]
          · rw [(ih _).2]
      · simp only [hw, Bool.false_eq_true, if_false]
        constructor
        · rw [(ih _).1]
        · rw [(ih _).2]

/-- The `catch` handler only appends the failure line: it changes none of
the counters, spawns and awaited exits of the `try` body's final state. -/
theorem executeAutoCommands_effects (env : AutoEnv) :
    (executeAutoCommands env).attempts = (tryBody env).1.attempts
    ∧ (executeAutoCommands env).sleeps = (tryBody env).1.sleeps
    ∧ (executeAutoCommands env).spawned = (tryBody env).1.spawned
    ∧ (executeAutoCommands env).awaitedExits = (tryBody env).1.awaitedExits := by
  rcases htb : tryBody env with ⟨s, o⟩
  unfold executeAutoCommands
  rw [htb]
  cases o <;> simp

/-- The attempt and sleep counters of the whole `try` body are those of the
polling loop. -/
theorem tryBody_counters (env : AutoEnv) :
    (tryBody env).1.attempts = (pollLoop env autoS0 0 maxRetries).1.attempts
    ∧ (tryBody env).1.sleeps = (pollLoop env autoS0 0 maxRetries).1.sleeps := by
  unfold tryBody
  by_cases h : (pollLoop env autoS0 0 maxRetries).2
  · simp only [h, if_true]
    constructor
    · rw [(runCmds_counters env commands _).1]
    · rw [(runCmds_counters env commands _).2]
  · simp [h]

/-- When every polling attempt fails, the `try` body returns early after 50
attempts and 50 sleeps, with the not-found line and no spawn. -/
theorem tryBody_all_fail (env : AutoEnv)
    (h : ∀ i, i < maxRetries → env.dirExistsAt i = false) :
    tryBody env =
      ({ lines := [waitingLine, dirNotFoundLine], attempts := 50, sleeps := 50,
         spawned := [], awaitedExits := [] }, BodyOutcome.earlyReturn) := by
  unfold tryBody
  rw [pollLoop_all_fail env maxRetries 0 autoS0 (fun j hj => by simpa using h j hj)]
  simp [autoS0, maxRetries]

/-- When the first successful polling attempt is attempt `k`, the `try`
body continues into the command loop with `k + 1` attempts and `k` sleeps
recorded and nothing spawned yet. -/
theorem tryBody_first_success (env : AutoEnv) (k : Nat) (hk : k < maxRetries)
    (hprev : ∀ j, j < k → env.dirExistsAt j = false)
    (hsucc : env.dirExistsAt k = true) :
    tryBody env =
      runCmds env
        { lines := [waitingLine, dirReadyLine, autoStartLine],
          attempts := k + 1, sleeps := k, spawned := [], awaitedExits := [] }
        commands := by
  unfold tryBody
  rw [pollLoop_first_success env k maxRetries 0 autoS0 hk
    (fun j hj => by simpa using hprev j hj) (by simpa using hsucc)]
  simp [autoS0]

/-- When some polling attempt succeeds, the `try` body continues into the
command loop from a state with nothing spawned and no awaited exit. -/
theorem tryBody_found (env : AutoEnv)
    (h : ∃ k, k < maxRetries ∧ env.dirExistsAt k = true) :
    ∃ s', tryBody env = runCmds env s' commands
      ∧ s'.spawned = [] ∧ s'.awaitedExits = [] := by
  have hf := pollLoop_found env maxRetries 0 autoS0 (by simpa using h)
  unfold tryBody
  simp only [hf, if_true]
  refine ⟨_, rfl, ?_, ?_⟩
  · simpa using (pollLoop_preserves env maxRetries 0 autoS0).1
  · simpa using (pollLoop_preserves env maxRetries 0 autoS0).2

/-- Running the hardcoded command list from any state: with both spawns
succeeding, a zero install exit code leads to both spawns (dev not
awaited); a nonzero install exit code stops before spawning dev. -/
theorem runCmds_commands_effects (env : AutoEnv) (s : AutoState) (cInstall cDev : Int)
    (hInstall : env.spawnResult installSpawn = Except.ok cInstall)
    (hDev : env.spawnResult devSpawn = Except.ok cDev) :
    (cInstall = 0 →
       (runCmds env s commands).1.spawned = s.spawned ++ [installSpawn, devSpawn]
       ∧ (runCmds env s commands).1.awaitedExits = s.awaitedExits ++ [installSpawn]
       ∧ (runCmds env s commands).2 = BodyOutcome.completed)
    ∧ (cInstall ≠ 0 →
       (runCmds env s commands).1.spawned = s.spawned ++ [installSpawn]
       ∧ (runCmds env s commands).1.awaitedExits = s.awaitedExits ++ [installSpawn]
       ∧ (runCmds env s commands).2 = BodyOutcome.earlyReturn) := by
  rw [installSpawn] at hInstall
  rw [devSpawn] at hDev
  constructor
  · intro h0
    simp [commands, runCmds, hInstall, hDev, h0, installSpawn, devSpawn]
  · intro h0
    simp [commands, runCmds, hInstall, hDev, h0, installSpawn, devSpawn]

/-- `pipeShellOutput` appends the chunk list to the accumulated terminal
writes. -/
theorem pipeShellOutput_eq (chunks : List String) :
    ∀ acc : List String, pipeShellOutput acc chunks = acc ++ chunks := by
  induction chunks with
  | nil => intro acc; simp [pipeShellOutput]
  | cons d ds ih =>
    intro acc
    rw [pipeShellOutput, ih]
    simp

/-- `feedTerminalData` appends the data-event list to the accumulated shell
input writes. -/
theorem feedTerminalData_eq (dataEvents : List String) :
    ∀ acc : List String, feedTerminalData acc dataEvents = acc ++ dataEvents := by
  induction dataEvents with
  | nil => intro acc; simp [feedTerminalData]
  | cons d ds ih =>
    intro acc
    rw [feedTerminalData, ih]
    simp

/-- The trace of the non-boot branch of `initWebContainer` never contains a
boot event. -/
theorem boot_not_mem_else (s : StoreState) (env : CallEnv) :
    InitEvent.boot ∉
      ([InitEvent.getProjectInfo]
        ++ (if env.projectInfo.isSome then [InitEvent.writeProjectFiles] else [])
        ++ (if env.curDirectory.isSome then [InitEvent.writeCurDirectory] else [])
        ++ (if s.webContainerInstance.isSome then [InitEvent.attachServerReady] else [])
        ++ [InitEvent.storeSet]) := by
  by_cases hp : env.projectInfo.isSome <;> by_cases hc : env.curDirectory.isSome <;>
    by_cases hw : s.webContainerInstance.isSome <;> simp [hp, hc, hw]

/-! ## Claims -/

/-- C1 (counterexample): over the sequence of two completed
`initWebContainer` calls on the fresh store, two 'server-ready' listeners
are registered on the container instance in total, not exactly one — the
second call re-attaches a listener on the existing instance in its else
branch. -/
theorem c1_counterexample_two_calls_two_listeners :
    (runInitCalls initialStore [plainEnv, plainEnv]).serverReadyListeners = 2
    ∧ (runInitCalls initialStore [plainEnv, plainEnv]).serverReadyListeners ≠ 1 := by
  constructor
  · rfl
  · decide

/-- C1 (amended): every completed `initWebContainer` call registers exactly
one 'server-ready' listener on the container instance, so over a sequence
of n calls on the fresh store n listeners accumulate in total. -/
theorem initWebContainer_listeners_accumulate (envs : List CallEnv) :
    (runInitCalls initialStore envs).serverReadyListeners = envs.length := by
  cases envs with
  | nil => rfl
  | cons e es =>
    rw [runInitCalls_cons]
    have hsome : ((initWebContainer initialStore e).1).webContainerInstance.isSome = true := by
      simp [initWebContainer, initialStore]
    rw [runInitCalls_listeners_of_some es _ hsome]
    have h1 : ((initWebContainer initialStore e).1).serverReadyListeners = 1 := by
      simp [initWebContainer, initialStore]
    rw [h1, List.length_cons]
    omega

/-- C2: `initWebContainer` boots a new container if and only if the store
holds no container instance and is not marked initialized; when an instance
already exists, the call boots nothing, the store keeps that same instance,
and cached project files (and the current directory), when present, are
still written into it. -/
theorem initWebContainer_initialize_if_not_already (s : StoreState) (env : CallEnv) :
    (InitEvent.boot ∈ (initWebContainer s env).2 ↔
       s.webContainerInstance = none ∧ s.isInitialized = false)
    ∧ (∀ i : Nat, s.webContainerInstance = some i →
        InitEvent.boot ∉ (initWebContainer s env).2
        ∧ (initWebContainer s env).1.webContainerInstance = some i
        ∧ (env.projectInfo.isSome = true →
            InitEvent.writeProjectFiles ∈ (initWebContainer s env).2)
        ∧ (env.curDirectory.isSome = true →
            InitEvent.writeCurDirectory ∈ (initWebContainer s env).2)) := by
  constructor
  · by_cases h : s.isInitialized = false ∧ s.webContainerInstance = none
    · rw [initWebContainer, if_pos h]
      refine iff_of_true ?_ ⟨h.2, h.1⟩
      simp
    · rw [initWebContainer, if_neg h]
      refine iff_of_false (boot_not_mem_else s env) ?_
      rintro ⟨h1, h2⟩
      exact h ⟨h2, h1⟩
  · intro i hi
    have hns : ¬(s.isInitialized = false ∧ s.webContainerInstance = none) := by
      rintro ⟨_, h2⟩
      rw [hi] at h2
      cases h2
    rw [initWebContainer, if_neg hns]
    refine ⟨boot_not_mem_else s env, by simpa using hi, ?_, ?_⟩
    · intro hp; simp [hp]
    · intro hc; simp [hc]

/-- C2 (witness): on the fresh store a call boots; on a store holding
instance 5 a call with cached files boots nothing, keeps instance 5 and
still writes the cached project files. -/
theorem c2_witness :
    (InitEvent.boot ∈ (initWebContainer initialStore plainEnv).2 ↔
       initialStore.webContainerInstance = none ∧ initialStore.isInitialized = false)
    ∧ InitEvent.boot ∉ (initWebContainer readyStore fullEnv).2
    ∧ (initWebContainer readyStore fullEnv).1.webContainerInstance = some 5
    ∧ InitEvent.writeProjectFiles ∈ (initWebContainer readyStore fullEnv).2 :=
  ⟨(initWebContainer_initialize_if_not_already initialStore plainEnv).1,
   ((initWebContainer_initialize_if_not_already readyStore fullEnv).2 5 rfl).1,
   ((initWebContainer_initialize_if_not_already readyStore fullEnv).2 5 rfl).2.1,
   ((initWebContainer_initialize_if_not_already readyStore fullEnv).2 5 rfl).2.2.1 rfl⟩

/-- C9: every completed `initWebContainer` call leaves `isInitialized =
true` whichever branch ran, and an existing container instance is never
replaced. -/
theorem initWebContainer_sets_initialized_keeps_instance (s : StoreState) (env : CallEnv) :
    (initWebContainer s env).1.isInitialized = true
    ∧ (∀ i : Nat, s.webContainerInstance = some i →
        (initWebContainer s env).1.webContainerInstance = some i) := by
  by_cases h : s.isInitialized = false ∧ s.webContainerInstance = none
  · rw [initWebContainer, if_pos h]
    refine ⟨rfl, ?_⟩
    intro i hi
    rw [h.2] at hi
    cases hi
  · rw [initWebContainer, if_neg h]
    exact ⟨rfl, fun i hi => by simpa using hi⟩

/-- C9 (witness): a call on the initialized store holding instance 5 keeps
`isInitialized = true` and instance 5. -/
theorem c9_witness :
    (initWebContainer readyStore plainEnv).1.isInitialized = true
    ∧ (initWebContainer readyStore plainEnv).1.webContainerInstance = some 5 :=
  ⟨(initWebContainer_sets_initialized_keeps_instance readyStore plainEnv).1,
   (initWebContainer_sets_initialized_keeps_instance readyStore plainEnv).2 5 rfl⟩

/-- C3: `executeAutoCommands` polls for `/react` at most 50 times, waiting
200 ms after each failed attempt for at most 10 seconds in total; polling
stops immediately on the first successful attempt, and if all 50 attempts
fail the function returns without spawning any process. -/
theorem executeAutoCommands_polling_bounds (env : AutoEnv) :
    (executeAutoCommands env).attempts ≤ maxRetries
    ∧ (executeAutoCommands env).sleeps * retryInterval ≤ 10000
    ∧ (∀ i, i < maxRetries → (∀ j, j < i → env.dirExistsAt j = false) →
        env.dirExistsAt i = true →
        (executeAutoCommands env).attempts = i + 1
        ∧ (executeAutoCommands env).sleeps = i)
    ∧ ((∀ i, i < maxRetries → env.dirExistsAt i = false) →
        (executeAutoCommands env).spawned = []
        ∧ (executeAutoCommands env).attempts = maxRetries
        ∧ (executeAutoCommands env).sleeps = maxRetries) := by
  obtain ⟨ea, es, esp, _⟩ := executeAutoCommands_effects env
  obtain ⟨ta, ts⟩ := tryBody_counters env
  have hle := pollLoop_counters_le env maxRetries 0 autoS0
  have ha0 : autoS0.attempts = 0 := rfl
  have hs0 : autoS0.sleeps = 0 := rfl
  have h50 : maxRetries = 50 := rfl
  have h200 : retryInterval = 200 := rfl
  refine ⟨?_, ?_, ?_, ?_⟩
  · rw [ea, ta]
    have h1 := hle.1
    rw [ha0] at h1
    omega
  · rw [es, ts, h200]
    have h2 := hle.2
    rw [hs0, h50] at h2
    omega
  · intro i hi hfirst hsucc
    have hp := pollLoop_first_success env i maxRetries 0 autoS0 hi
      (fun j hj => by simpa using hfirst j hj) (by simpa using hsucc)
    constructor
    · rw [ea, ta, hp]
      simp [autoS0]
    · rw [es, ts, hp]
      simp [autoS0]
  · intro hall
    have htb := tryBody_all_fail env hall
    refine ⟨?_, ?_, ?_⟩
    · rw [esp, htb]
    · rw [ea, htb, h50]
    · rw [es, htb, h50]

/-- C3 (witness): with `/react` first appearing on attempt index 3, the
run does exactly 4 readdir attempts and 3 sleeps. -/
theorem c3_witness :
    (executeAutoCommands pollEnv3).attempts = 3 + 1
    ∧ (executeAutoCommands pollEnv3).sleeps = 3 :=
  (executeAutoCommands_polling_bounds pollEnv3).2.2.1 3 (by decide) (by decide) (by decide)

/-- C4: after the directory check succeeds, `executeAutoCommands` runs
exactly `pnpm install` then `pnpm dev`, both with working directory
`/react`, in that order; it awaits the exit of `pnpm install`, and on a
nonzero exit code returns without spawning `pnpm dev`; `pnpm dev` is never
awaited. -/
theorem executeAutoCommands_runs_hardcoded_commands (env : AutoEnv) (k : Nat)
    (hk : k < maxRetries) (hdk : env.dirExistsAt k = true)
    (cInstall cDev : Int)
    (hInstall : env.spawnResult installSpawn = Except.ok cInstall)
    (hDev : env.spawnResult devSpawn = Except.ok cDev) :
    (cInstall = 0 →
       (executeAutoCommands env).spawned = [installSpawn, devSpawn]
       ∧ (executeAutoCommands env).awaitedExits = [installSpawn]
       ∧ devSpawn ∉ (executeAutoCommands env).awaitedExits)
    ∧ (cInstall ≠ 0 →
       (executeAutoCommands env).spawned = [installSpawn]
       ∧ (executeAutoCommands env).awaitedExits = [installSpawn]) := by
  obtain ⟨_, _, esp, eaw⟩ := executeAutoCommands_effects env
  obtain ⟨s', hs', hsp, haw⟩ := tryBody_found env ⟨k, hk, hdk⟩
  have hrc := runCmds_commands_effects env s' cInstall cDev hInstall hDev
  constructor
  · intro h0
    obtain ⟨r1, r2, _⟩ := hrc.1 h0
    refine ⟨?_, ?_, ?_⟩
    · rw [esp, hs', r1, hsp]
      simp
    · rw [eaw, hs', r2, haw]
      simp
    · rw [eaw, hs', r2, haw]
      simp [installSpawn, devSpawn]
  · intro h0
    obtain ⟨r1, r2, _⟩ := hrc.2 h0
    constructor
    · rw [esp, hs', r1, hsp]
      simp
    · rw [eaw, hs', r2, haw]
      simp

/-- C4 (witness): with the directory present and both spawns exiting 0, the
run spawns exactly `pnpm install` then `pnpm dev` in `/react` and awaits
only the install. -/
theorem c4_witness :
    (executeAutoCommands okEnv).spawned = [installSpawn, devSpawn]
    ∧ (executeAutoCommands okEnv).awaitedExits = [installSpawn] :=
  ⟨((executeAutoCommands_runs_hardcoded_commands okEnv 0 (by decide) rfl 0 0 rfl rfl).1
      rfl).1,
   ((executeAutoCommands_runs_hardcoded_commands okEnv 0 (by decide) rfl 0 0 rfl rfl).1
      rfl).2.1⟩

/-- C10: every exception the `try` body of `executeAutoCommands` raises is
caught: the function returns normally (its result type is a plain state,
not an exception) and the caught error message is rendered to the terminal
as the failure line. -/
theorem executeAutoCommands_catches_every_error (env : AutoEnv) (s : AutoState)
    (msg : String) (h : tryBody env = (s, BodyOutcome.threw msg)) :
    executeAutoCommands env = { s with lines := s.lines ++ [autoFailLine msg] }
    ∧ autoFailLine msg ∈ (executeAutoCommands env).lines := by
  have he : executeAutoCommands env = { s with lines := s.lines ++ [autoFailLine msg] } := by
    unfold executeAutoCommands
    rw [h]
  refine ⟨he, ?_⟩
  rw [he]
  simp

/-- C10 (witness): when the install spawn raises `boom`, the run returns
normally with the failure line appended. -/
theorem c10_witness :
    executeAutoCommands throwEnv =
      { throwTryState with lines := throwTryState.lines ++ [autoFailLine "boom"] } :=
  (executeAutoCommands_catches_every_error throwEnv throwTryState "boom" rfl).1

/-- C5: once the shell process is spawned the panel wires exactly two
streams bidirectionally — every chunk of the shell's output stream is
written to the terminal widget, in order and nothing else, and every data
event of the terminal widget is written to the shell's input stream, in
order and nothing else. -/
theorem shell_terminal_streams_wired_bidirectionally (chunks dataEvents : List String) :
    pipeShellOutput [] chunks = chunks ∧ feedTerminalData [] dataEvents = dataEvents := by
  constructor
  · rw [pipeShellOutput_eq chunks []]
    simp
  · rw [feedTerminalData_eq dataEvents []]
    simp

/-- C6: when both the fit addon and the shell process exist,
`terminalResize` (and the identical window resize handler) first refits the
terminal to its container and then resizes the shell pseudo-terminal to the
terminal's current (post-fit) cols and rows; when the shell has not been
spawned it performs no resize at all. -/
theorem terminalResize_refits_then_resizes (fitted : TermGeom) (s : TermPanelState) :
    (s.fitAddonLoaded = true → s.shellGeom.isSome = true →
       (terminalResize fitted s).termGeom = fitted
       ∧ (terminalResize fitted s).shellGeom = some fitted)
    ∧ (s.shellGeom = none → terminalResize fitted s = s) := by
  constructor
  · intro h1 h2
    rw [terminalResize, if_pos (by rw [h1, h2]; rfl)]
    constructor
    · rfl
    · rcases hs : s.shellGeom with _ | g
      · rw [hs] at h2
        cases h2
      · simp [shellResizeStep, fitStep, hs]
  · intro h
    rw [terminalResize, if_neg (by rw [h]; simp)]

/-- C6 (witness): with the fit addon loaded and a shell at 80x24, a resize
against a 120x30 container leaves the terminal and the shell pty at
120x30. -/
theorem c6_witness :
    (terminalResize fittedW panelStateW).termGeom = fittedW
    ∧ (terminalResize fittedW panelStateW).shellGeom = some fittedW :=
  (terminalResize_refits_then_resizes fittedW panelStateW).1 rfl rfl

/-- C7: on a fresh initialization the store performs, in order, boot, then
file-system seeding (cached project files first, then the current
directory), then 'server-ready' listener attachment, then marking the store
initialized; in the panel, whenever the shell is spawned at all, it is
spawned before either stream is wired and before the auto-command sequence
starts. -/
theorem fresh_init_sequencing_and_shell_before_wiring (s : StoreState) (env : CallEnv)
    (h1 : s.isInitialized = false) (h2 : s.webContainerInstance = none)
    (h3 : env.projectInfo.isSome = true) (h4 : env.curDirectory.isSome = true) :
    (initWebContainer s env).2 =
      [InitEvent.getProjectInfo, InitEvent.boot, InitEvent.writeProjectFiles,
       InitEvent.writeCurDirectory, InitEvent.attachServerReady, InitEvent.storeSet]
    ∧ (∀ hi dm te : Bool, PanelEvent.spawnShell ∈ panelInit hi dm te →
        ((panelInit hi dm te).indexOf PanelEvent.spawnShell <
           (panelInit hi dm te).indexOf PanelEvent.pipeOutputToTerminal
         ∧ (panelInit hi dm te).indexOf PanelEvent.spawnShell <
           (panelInit hi dm te).indexOf PanelEvent.wireTerminalDataToInput
         ∧ (panelInit hi dm te).indexOf PanelEvent.spawnShell <
           (panelInit hi dm te).indexOf PanelEvent.runAutoCommands)) := by
  constructor
  · rw [initWebContainer, if_pos ⟨h1, h2⟩]
    simp [h3, h4]
  · intro hi dm te hmem
    cases hi <;> cases dm <;> cases te <;> revert hmem <;> decide

/-- C7 (witness): on the fresh store with both file sources present the
trace is exactly boot-seed-listen-set, and in the mounted panel the shell
spawn precedes the output wiring. -/
theorem c7_witness :
    (initWebContainer initialStore fullEnv).2 =
      [InitEvent.getProjectInfo, InitEvent.boot, InitEvent.writeProjectFiles,
       InitEvent.writeCurDirectory, InitEvent.attachServerReady, InitEvent.storeSet]
    ∧ (panelInit true true false).indexOf PanelEvent.spawnShell <
        (panelInit true true false).indexOf PanelEvent.pipeOutputToTerminal :=
  ⟨(fresh_init_sequencing_and_shell_before_wiring initialStore fullEnv rfl rfl rfl rfl).1,
   ((fresh_init_sequencing_and_shell_before_wiring initialStore fullEnv rfl rfl rfl rfl).2
      true true false (by decide)).1⟩

/-- C8: when the panel's cleanup runs with a container instance present, it
removes the container's filesystem root recursively, kills the shell
process exactly when one was spawned, resets the store's url to the empty
string, and clears the local terminal reference. -/
theorem panelCleanup_teardown (shellSpawned : Bool) (s : StoreState) :
    CleanupEvent.fsRmRootRecursive ∈ panelCleanup true shellSpawned
    ∧ (CleanupEvent.killShell ∈ panelCleanup true shellSpawned ↔ shellSpawned = true)
    ∧ CleanupEvent.setUrlEmpty ∈ panelCleanup true shellSpawned
    ∧ CleanupEvent.clearTerminal ∈ panelCleanup true shellSpawned
    ∧ (setUrl s "").url = "" := by
  cases shellSpawned <;> simp [panelCleanup, setUrl]
